import Mathlib

/-!
Verification of the DOM-to-action bridge of the browser-use Selenium fork.

The definitions below are shallow embeddings of the Python sources:
  browser_use/browser/context.py   (BrowserContext)
  browser_use/controller/service.py (Controller)
  browser_use/controller/selenium_snippets.py
  browser_use/dom/service.py       (DomService)
Stateful methods become explicit state passing, driver interaction is
captured by explicit environments, and fallible steps return Except/Option.
Data types whose defining module is absent from the source tree
(browser_use/browser/views.py, browser_use/agent/views.py,
browser_use/dom/views.py) are modelled from the specification and marked
as such in their doc comments.
-/

namespace BrowserUse

/-! ### String helpers

Python string primitives (split, endswith, strip, substring containment)
are modelled over the character list of a string, so that every
definition evaluates inside the kernel. -/

/-- Character-list prefix test: `leadsWith needle hay` is true when `hay`
starts with `needle` (model of the prefix part of Python `str.startswith`). -/
def leadsWith : List Char → List Char → Bool
  | [], _ => true
  | _ :: _, [] => false
  | a :: as, b :: bs => a == b && leadsWith as bs

/-- Substring containment on character lists (model of Python `in` for strings). -/
def hasSub : List Char → List Char → Bool
  | [], needle => needle.isEmpty
  | h :: t, needle => leadsWith needle (h :: t) || hasSub t needle

/-- String substring containment. -/
def strContains (s sub : String) : Bool := hasSub s.data sub.data

/-- Model of Python `str.startswith`. -/
def strStartsW (s p : String) : Bool := leadsWith p.data s.data

/-- Model of Python `str.endswith`. -/
def strEndsW (s suffix : String) : Bool :=
  leadsWith suffix.data.reverse s.data.reverse

/-- ASCII lower-casing of one character (the inputs of interest are ASCII). -/
def charLower (c : Char) : Char :=
  if c.toNat ≥ 65 && c.toNat ≤ 90 then Char.ofNat (c.toNat + 32) else c

/-- Model of Python `str.lower` for ASCII strings. -/
def strLower (s : String) : String := String.mk (s.data.map charLower)

/-- White-space set of Python `str.split()` / `str.strip()`. -/
def isPyWs (c : Char) : Bool :=
  c == ' ' || c == '\t' || c == '\n' || c == '\x0b' || c == '\x0c' || c == '\r'

/-- Helper for `splitWs`: walks the characters with an accumulator of the
current (reversed) word. -/
def splitWsAux : List Char → List Char → List String
  | [], acc => if acc.isEmpty then [] else [String.mk acc.reverse]
  | c :: rest, acc =>
    if isPyWs c then
      if acc.isEmpty then splitWsAux rest []
      else String.mk acc.reverse :: splitWsAux rest []
    else splitWsAux rest (c :: acc)

/-- Model of Python `str.split()` with no argument: splits on runs of
white space and drops empty pieces. -/
def splitWs (s : String) : List String := splitWsAux s.data []

/-- Truthiness of Python `s.strip()`: true when the string holds at least
one non-white-space character. -/
def stripTruthy (s : String) : Bool := s.data.any (fun c => !(isPyWs c))

/-! ### URL allow-list (`BrowserContext._is_url_allowed`, context.py lines 320-339) -/

/-- Scans for the first occurrence of the scheme separator and returns the
characters after it. Models the part of `urllib.parse.urlparse` relevant to
URLs of the common form `scheme://netloc/...`; a URL with no `://` (such
as `about:blank`) yields no netloc and hence no hostname. -/
def dropToSchemeSep : List Char → Option (List Char)
  | [] => none
  | ':' :: '/' :: '/' :: rest => some rest
  | _ :: rest => dropToSchemeSep rest

/-- Netloc of a URL: the characters after `://` up to the first `/`, `?` or `#`. -/
def takeNetloc (rest : List Char) : List Char :=
  rest.takeWhile (fun c => !(c == '/' || c == '?' || c == '#'))

/-- Drops a `user:password@` prefix of the netloc: keeps what follows the
last `@`, as `urlparse(...).hostname` does. -/
def dropUserinfo (netloc : List Char) : List Char :=
  netloc.foldl (fun acc c => if c == '@' then [] else acc ++ [c]) []

/-- Model of `urllib.parse.urlparse(url).hostname`: lower-cased host part of
the netloc with any port removed, or `none` when the URL has no netloc or
an empty host. -/
def url_hostname (url : String) : Option String :=
  match dropToSchemeSep url.data with
  | none => none
  | some rest =>
    let host := ((dropUserinfo (takeNetloc rest)).takeWhile (fun c => !(c == ':'))).map charLower
    if host.isEmpty then none else some (String.mk host)

/-- Embedding of `BrowserContext._is_url_allowed` (context.py lines 320-339).
A missing or empty allow-list permits everything (the Python guard
`if not self.config.allowed_domains` treats `None` and `[]` alike);
a URL with no hostname is allowed; otherwise the hostname must equal a
configured domain or end with `"." + domain`. The Python `except` branch
also returns `True`; the embedding is total, so that branch has no
counterpart. -/
def is_url_allowed (allowed_domains : Option (List String)) (url : String) : Bool :=
  match allowed_domains with
  | none => true
  | some ds =>
    if ds.isEmpty then true
    else
      match url_hostname url with
      | none => true
      | some h => ds.any (fun dm => h == dm || strEndsW h ("." ++ dm))

/-- Navigation-relevant part of the Selenium session: the current URL of
the driver. -/
structure NavSession where
  current_url : String
deriving Repr, DecidableEq

/-- Embedding of `BrowserContext.navigate_to` (context.py lines 350-358).
When the target URL is not allowed, `URLNotAllowedError` is raised before
`driver.get` runs, so the session URL is unchanged; otherwise `driver.get`
makes the target the current URL (no redirect is modelled) and
`_check_and_handle_navigation` re-checks the resulting URL. Errors are
returned as `Except.error` carrying the Python message. -/
def navigate_to (allowed_domains : Option (List String)) (s : NavSession) (url : String) :
    Except String Unit × NavSession :=
  if !(is_url_allowed allowed_domains url) then
    (Except.error ("Navigation to URL \x27" ++ url ++ "\x27 is not allowed."), s)
  else
    let s2 : NavSession := ⟨url⟩
    if !(is_url_allowed allowed_domains s2.current_url) then
      (Except.error ("Navigation to URL \x27" ++ s2.current_url ++ "\x27 is not allowed."), s2)
    else
      (Except.ok (), s2)

/-! ### DOM node model

Modelled from the spec: the node classes `DOMElementNode` / `DOMTextNode`
of browser_use/dom/views.py are not in the source tree; section 3 of the
spec describes an element node (tag name, attribute map, visibility flag,
structural path, optional integer handle, ordered children) and a text
node (literal text, visibility flag). The parent back-reference is
navigation-only and is not represented (ownership is top-down). -/
inductive DOMNode where
  | element (tag_name : String) (xpath : String) (attributes : List (String × String))
      (is_visible : Bool) (highlight_index : Option Nat) (is_interactive : Bool)
      (children : List DOMNode)
  | text (content : String) (is_visible : Bool)

/-- Tag name of a node (text nodes report the sentinel `#text`). -/
def tagName : DOMNode → String
  | .element t _ _ _ _ _ _ => t
  | .text _ _ => "#text"

/-- Structural path of a node. -/
def nodeXpath : DOMNode → String
  | .element _ x _ _ _ _ _ => x
  | .text _ _ => ""

/-- Attribute map of a node. -/
def nodeAttrs : DOMNode → List (String × String)
  | .element _ _ a _ _ _ _ => a
  | .text _ _ => []

/-- Children of a node. -/
def nodeChildren : DOMNode → List DOMNode
  | .element _ _ _ _ _ _ cs => cs
  | .text _ _ => []

/-- Highlight index (handle) of a node; text nodes never carry one. -/
def highlightIdx : DOMNode → Option Nat
  | .element _ _ _ _ hl _ _ => hl
  | .text _ _ => none

/-- Discriminator corresponding to `isinstance(node, DOMElementNode)`. -/
def isElementNode : DOMNode → Bool
  | .element _ _ _ _ _ _ _ => true
  | .text _ _ => false

/-! ### Selector map (`DomService._build_selector_map`, dom/service.py lines 115-136)

The Python `traverse` visits a node, records it when it is an element node
with a non-None highlight index, and recurses into the children of element
nodes. The map is embedded as the association list of recorded
(index, node) pairs in traversal order. -/

mutual

/-- Entries the depth-first traversal records for one node and its subtree. -/
def buildSelectorMapNode : DOMNode → List (Nat × DOMNode)
  | .text _ _ => []
  | .element t x a v hl ii cs =>
    (match hl with
     | some idx => [(idx, DOMNode.element t x a v hl ii cs)]
     | none => []) ++ buildSelectorMapChildren cs

/-- Entries recorded for a child list, left to right. -/
def buildSelectorMapChildren : List DOMNode → List (Nat × DOMNode)
  | [] => []
  | c :: rest => buildSelectorMapNode c ++ buildSelectorMapChildren rest

end

/-- Embedding of `DomService._build_selector_map`. -/
def build_selector_map (root : DOMNode) : List (Nat × DOMNode) :=
  buildSelectorMapNode root

mutual

/-- All nodes visited by the depth-first traversal starting at a node. -/
def allNodes : DOMNode → List DOMNode
  | .text s v => [DOMNode.text s v]
  | .element t x a v hl ii cs => DOMNode.element t x a v hl ii cs :: allNodesChildren cs

/-- All nodes visited below a child list, left to right. -/
def allNodesChildren : List DOMNode → List DOMNode
  | [] => []
  | c :: rest => allNodes c ++ allNodesChildren rest

end

/-! ### Element locator (`BrowserContext.get_locate_element`, context.py lines 699-765) -/

/-- Driver interface seen by the locator: `find_element(By.XPATH, s)` and
`find_element(By.CSS_SELECTOR, s)`, with `none` standing for the
`NoSuchElementException` / `WebDriverException` branches that the Python
code swallows before moving to the next strategy. A located live element
is identified by a number. -/
structure SelDriver where
  find_xpath : String → Option Nat
  find_css : String → Option Nat

/-- Characters escaped by the Python pattern used in
`_enhanced_css_selector_for_element`. The character class is
colon, double quote, apostrophe, backtick, dot, parentheses, square
brackets, slash and backslash. -/
def cssSpecialChars : List Char :=
  [':', '"', '\x27', '\x60', '.', '(', ')', '[', ']', '/', '\\']

/-- Embedding of the `re.sub` call in `_enhanced_css_selector_for_element`.
The replacement template is the Python string of backslash backslash
dollar ampersand; Python regex replacement turns the doubled backslash
into one literal backslash and leaves dollar ampersand untouched (that is
JavaScript syntax), so every special character is replaced by the literal
three characters backslash dollar ampersand. -/
def cleanCssValue (v : String) : String :=
  String.mk (v.data.map (fun c =>
    if cssSpecialChars.contains c then ['\\', '$', '&'] else [c])).flatten

/-- First value bound to a key in the attribute list (Python dict lookup;
keys are unique in a dict, so first match is the lookup). -/
def attrLookup (attrs : List (String × String)) (k : String) : Option String :=
  match attrs.find? (fun p => p.1 == k) with
  | some p => some p.2
  | none => none

/-- Value of an attribute, defaulting to the empty string. -/
def getAttr (attrs : List (String × String)) (k : String) : String :=
  (attrLookup attrs k).getD ""

/-- Python truthiness of `attrs.get(k)`: the key is present with a
non-empty value. -/
def hasTruthyAttr (attrs : List (String × String)) (k : String) : Bool :=
  match attrLookup attrs k with
  | some v => !(v == "")
  | none => false

/-- Embedding of `BrowserContext._enhanced_css_selector_for_element`
(context.py lines 642-697): tag name, then either the quoted escaped id,
or the priority attributes in their fixed order, the data- attributes in
insertion order when dynamic attributes are included, and up to two
stable classes. -/
def enhanced_css_selector_for_element (element : DOMNode)
    (include_dynamic_attributes : Bool) : String :=
  let tag := strLower (tagName element)
  if tag == "#text" || tag == "#comment" then ""
  else
    let attrs := nodeAttrs element
    if hasTruthyAttr attrs "id" then
      tag ++ "#\x27" ++ cleanCssValue (getAttr attrs "id") ++ "\x27"
    else
      let priorityAttrs := ["name", "type", "role", "aria-label", "title", "href", "placeholder"]
      let prioritySels := priorityAttrs.filterMap (fun a =>
        if hasTruthyAttr attrs a then
          some ("[" ++ a ++ "=\x27" ++ cleanCssValue (getAttr attrs a) ++ "\x27]")
        else none)
      let dataSels :=
        if include_dynamic_attributes then
          attrs.filterMap (fun p =>
            if strStartsW p.1 "data-" && !(p.2 == "") then
              some ("[" ++ p.1 ++ "=\x27" ++ cleanCssValue p.2 ++ "\x27]")
            else none)
        else []
      let classSels :=
        if hasTruthyAttr attrs "class" then
          (((splitWs (getAttr attrs "class")).filter
              (fun c => !(strStartsW c "js-") && c.length > 2)).take 2).map
            (fun c => "." ++ cleanCssValue c)
        else []
      tag ++ String.join (prioritySels ++ dataSels ++ classSels)

/-- Embedding of the strategy-3 selector built inline in
`get_locate_element` (context.py lines 728-738): lower-cased tag, then a
raw `#id` when the id attribute is truthy, else `.firstClass` when the
class attribute is truthy and splits into at least one class. -/
def simple_selector_for_element (element : DOMNode) : String :=
  if !(tagName element == "") && !(tagName element == "#text") then
    let base := strLower (tagName element)
    let attrs := nodeAttrs element
    if hasTruthyAttr attrs "id" then base ++ "#" ++ getAttr attrs "id"
    else if hasTruthyAttr attrs "class" then
      match splitWs (getAttr attrs "class") with
      | [] => base
      | c :: _ => base ++ "." ++ c
    else base
  else ""

/-- Concatenated text of the direct text-node children (the
`element_text` accumulation in strategy 4 of `get_locate_element`). -/
def childTextContent (element : DOMNode) : String :=
  String.join ((nodeChildren element).filterMap (fun c =>
    match c with
    | .text s _ => some s
    | .element _ _ _ _ _ _ _ => none))

/-- XPath used by the text-containment strategy of `get_locate_element`. -/
def text_match_xpath (element_text : String) : String :=
  "//*[contains(text(), \x27" ++ element_text ++ "\x27)]"

/-- Embedding of `BrowserContext.get_locate_element` (context.py lines
699-765). The four strategies run in order, each tried only when every
earlier one produced no element: the stored structural path, the enhanced
attribute selector, the simple tag+id/class selector, and finally the
text-containment XPath (only when the concatenated child text is
non-empty and does not strip to nothing). The function is total: the
Python code converts every failure into a `None` return. -/
def get_locate_element (include_dynamic_attributes : Bool) (d : SelDriver)
    (element : Option DOMNode) : Option Nat :=
  match element with
  | none => none
  | some el =>
    match (if !(nodeXpath el == "") then d.find_xpath (nodeXpath el) else none) with
    | some w => some w
    | none =>
      match (if !(enhanced_css_selector_for_element el include_dynamic_attributes == "") then
          d.find_css (enhanced_css_selector_for_element el include_dynamic_attributes)
        else none) with
      | some w => some w
      | none =>
        match (if !(simple_selector_for_element el == "") then
            d.find_css (simple_selector_for_element el)
          else none) with
        | some w => some w
        | none =>
          if !(childTextContent el == "") && stripTruthy (childTextContent el) then
            d.find_xpath (text_match_xpath (childTextContent el))
          else none

/-! ### Browser state and session (`BrowserContext`, context.py) -/

/-- Modelled from the spec: `TabInfo` of browser_use/browser/views.py is
not in the source tree; section 3 describes page index, title and URL. -/
structure TabInfo where
  page_id : Nat
  title : String
  url : String

/-- Modelled from the spec: `BrowserState` of browser_use/browser/views.py
is not in the source tree; section 3 describes element tree root, selector
map, current URL, page title, optional screenshot blob and tab list. The
selector map is the association list produced by `build_selector_map`. -/
structure BrowserState where
  element_tree : DOMNode
  selector_map : List (Nat × DOMNode)
  url : String
  title : String
  screenshot : Option String
  tabs : List TabInfo

/-- Embedding of the `BrowserSession` dataclass (context.py lines 124-129)
without the driver object. `cached_state` is optional so that both
branches of the presence test in `get_state` are representable; the
Python initializer always sets it. -/
structure BrowserSession where
  cached_state : Option BrowserState
  original_window_handle : String

/-- Synthetic root used by `_get_initial_state` and by the error fallback
of `_update_state`: tag `root`, visible, empty xpath, no attributes, no
children. -/
def initial_root : DOMNode :=
  DOMNode.element "root" "" [] true none false []

/-- Outcome of the driver-dependent steps of one `_update_state` run:
the DOM extraction, the tab enumeration, the selector-map extraction and
the screenshot, each of which can raise, plus the current URL and title
read from the driver. -/
structure UpdateEnv where
  extract_dom_tree : Except String DOMNode
  tabs_info : Except String (List TabInfo)
  selector_map_result : Except String (List (Nat × DOMNode))
  screenshot_result : Except String String
  current_url : String
  title : String

/-- Minimal fallback state built by the `except` branch of
`_update_state` (context.py lines 487-506): empty single synthetic root
tree, empty selector map, no screenshot, no tabs. -/
def minimal_state (env : UpdateEnv) : BrowserState :=
  ⟨initial_root, [], env.current_url, env.title, none, []⟩

/-- Embedding of `BrowserContext._update_state` (context.py lines 414-506)
at the default `focus_element = -1` (the highlight branch is skipped).
The steps inside the `try` block run in source order; the screenshot has
its own inner `try` whose failure only leaves the screenshot empty. On
success the freshly built state is assigned to the session cache and
returned; on any failing step the cache is left untouched and the minimal
fallback state is returned. -/
def update_state (s : BrowserSession) (env : UpdateEnv) :
    BrowserSession × BrowserState :=
  match env.extract_dom_tree with
  | .error _ => (s, minimal_state env)
  | .ok tree =>
    match env.tabs_info with
    | .error _ => (s, minimal_state env)
    | .ok tabs =>
      match env.selector_map_result with
      | .error _ => (s, minimal_state env)
      | .ok m =>
        let shot := match env.screenshot_result with
          | .ok b => some b
          | .error _ => none
        let st : BrowserState := ⟨tree, m, env.current_url, env.title, shot, tabs⟩
        ({ s with cached_state := some st }, st)

/-- Embedding of `BrowserContext.get_state` (context.py lines 405-412):
return the cached state when one is present, otherwise run
`_update_state`. -/
def get_state (s : BrowserSession) (env : UpdateEnv) :
    BrowserSession × BrowserState :=
  match s.cached_state with
  | some st => (s, st)
  | none => update_state s env

/-! ### Page-settle wait (`BrowserContext._wait_for_page_load`, context.py lines 298-318) -/

/-- Timing configuration of `BrowserContextConfig` (context.py lines
103-107) restricted to the page-load fields, with the Python defaults. -/
structure BrowserContextConfig where
  minimum_wait_page_load_time : ℚ := 1 / 2
  wait_for_network_idle_page_load_time : ℚ := 1
  maximum_wait_page_load_time : ℚ := 5
  wait_between_actions : ℚ := 1

/-- Observable steps of one `_wait_for_page_load` run. -/
inductive WaitEvent where
  | sleep_min (seconds : ℚ)
  | poll_ready (timeout : ℚ)
  | sleep_network_idle (seconds : ℚ)
  | warn_timeout (timeout : ℚ)
deriving DecidableEq

/-- Effective timeout of `_wait_for_page_load`:
`timeout_overwrite or self.config.maximum_wait_page_load_time`, where the
Python `or` also discards a zero overwrite because `0.0` is falsy. -/
def effective_timeout (cfg : BrowserContextConfig) (timeout_overwrite : Option ℚ) : ℚ :=
  match timeout_overwrite with
  | some t => if t = 0 then cfg.maximum_wait_page_load_time else t
  | none => cfg.maximum_wait_page_load_time

/-- Embedding of `BrowserContext._wait_for_page_load`. The parameter
`ready_within_timeout` records whether the `WebDriverWait` poll saw the
document ready state become `complete` before the timeout. The function
returns the ordered trace of waits and `true` for a normal return: the
`TimeoutException` branch only logs a warning (and skips the network-idle
sleep), it never raises to the caller. -/
def wait_for_page_load (cfg : BrowserContextConfig) (timeout_overwrite : Option ℚ)
    (ready_within_timeout : Bool) : List WaitEvent × Bool :=
  let timeout := effective_timeout cfg timeout_overwrite
  if ready_within_timeout then
    ([WaitEvent.sleep_min cfg.minimum_wait_page_load_time,
      WaitEvent.poll_ready timeout,
      WaitEvent.sleep_network_idle cfg.wait_for_network_idle_page_load_time], true)
  else
    ([WaitEvent.sleep_min cfg.minimum_wait_page_load_time,
      WaitEvent.poll_ready timeout,
      WaitEvent.warn_timeout timeout], true)

/-! ### Replay snippets and the input-text action
(`selenium_snippets.input_txt`, lines 77-82; `input_text` of
controller/service.py, lines 197-215) -/

/-- Embedding of `selenium_snippets.input_txt`: the emitted replay code
interpolates the element xpath and the raw text. -/
def input_txt (element_xpath : String) (text : String) : String :=
  "\nelement_to_input = driver.find_element(By.XPATH, \x27" ++ element_xpath ++
    "\x27)\nelement_to_input.send_keys(\"" ++ text ++ "\")\n"

/-- Log message built by the `input_text` action (service.py lines
206-209): the literal text when the sensitive flag is off, a placeholder
sentence otherwise. -/
def input_text_log_message (text : String) (index : Nat)
    (has_sensitive_data : Bool) : String :=
  if !has_sensitive_data then
    "⌨️  Input " ++ text ++ " into index " ++ Nat.repr index
  else
    "⌨️  Input sensitive data into index " ++ Nat.repr index

/-- Replay snippet emitted by the `input_text` action (service.py line
213): `selenium_snippets.input_txt(element_node.xpath, params.text)` is
called with the literal text for every value of the sensitive flag. -/
def input_text_snippet (element_xpath : String) (text : String)
    (has_sensitive_data : Bool) : String :=
  input_txt element_xpath text

/-! ### Select-dropdown action (`select_dropdown_option` of
controller/service.py, lines 479-555) -/

/-- One execution context (the main document or one iframe) as seen by the
dropdown action: whether `WebDriverWait ... presence_of_element_located`
finds an element for a given XPath string, and whether
`Select(...).select_by_visible_text` succeeds for a given XPath and
visible option text. -/
structure FrameEnv where
  has_element : String → Bool
  can_select_by_visible_text : String → String → Bool

/-- Frames reachable from the top-level document: the main document and
the same-level iframes in order. -/
structure DropdownEnv where
  main : FrameEnv
  iframes : List FrameEnv

/-- One selection attempt inside a frame: locate the element by the given
XPath string, then select the given visible text; the Python bare
`except` turns any failure of either step into moving on. -/
def attempt_select (f : FrameEnv) (xpath : String) (text : String) : Bool :=
  f.has_element xpath && f.can_select_by_visible_text xpath text

/-- Modelled from the spec: `ActionResult` of browser_use/agent/views.py
is not in the source tree; section 3 describes extracted content, a
done flag, an optional error and a keep-in-memory flag. -/
structure ActionResult where
  is_done : Bool := false
  extracted_content : Option String := none
  error : Option String := none
  include_in_memory : Bool := false
deriving DecidableEq

/-- Embedding of the `select_dropdown_option` action (service.py lines
479-555) after the index checks. A non-`select` tag returns the
descriptive error result. Otherwise the code attempts the main document
first and then each iframe in order; the strings it passes to the driver
are the literal characters `{dropdown_xpath}` and `{text}` (the
`WebDriverWait` and `select_by_visible_text` lines in service.py are not
f-strings), not the given xpath and option text. Afterwards, whether or
not any frame succeeded, the action returns the success message built
from the requested text. The second component reports `found_in_frame`,
true exactly when some selection attempt succeeded. -/
def select_dropdown_option (env : DropdownEnv) (index : Nat) (tag_name : String)
    (dropdown_xpath : String) (option_text : String) : ActionResult × Bool :=
  if !(strLower tag_name == "select") then
    (⟨false, none,
      some ("Element at index " ++ Nat.repr index ++ " is a " ++ strLower tag_name ++
        ", not a SELECT"), true⟩, false)
  else
    let used_xpath := "\x7bdropdown_xpath\x7d"
    let used_text := "\x7btext\x7d"
    let found_main := attempt_select env.main used_xpath used_text
    let found := found_main || env.iframes.any (fun f => attempt_select f used_xpath used_text)
    (⟨false,
      some ("Selected option \x27" ++ option_text ++ "\x27 from dropdown at index " ++
        Nat.repr index), none, true⟩, found)

/-! ### Multi-action batches (`Controller.multi_act`, controller/service.py lines 563-609) -/

/-- Modelled from the spec: `DOMElementNode.hash.branch_path_hash` comes
from browser_use/dom/views.py, which is not in the source tree. The spec
calls these values the structural-path fingerprints of the interactive
elements, so the fingerprint of an element node is derived from its
structural path. -/
def branch_path_hash : DOMNode → String
  | .element _ x _ _ _ _ _ => x
  | .text _ _ => ""

/-- Fingerprint set of a selector map
(`set(e.hash.branch_path_hash for e in selector_map.values())`),
kept as a list of fingerprints. -/
def pathHashes (m : List (Nat × DOMNode)) : List String :=
  m.map (fun p => branch_path_hash p.2)

/-- Set inclusion `new.issubset(cached)` on fingerprint lists. -/
def hashesSubset (new cached : List String) : Bool :=
  new.all (fun h => cached.contains h)

/-- Python truthiness of `results[-1].error`: present and non-empty. -/
def errorTruthy (r : ActionResult) : Bool :=
  match r.error with
  | some e => !(e == "")
  | none => false

/-- Environment of one `multi_act` run: the result `self.act` produces
for the i-th action of the batch (abstracting the registry dispatch), and
the driver environment `get_state` would use on a cache miss. -/
structure MultiActEnv where
  act_result : Nat → ActionResult
  update_env : UpdateEnv

/-- Informational stop message of the change-detection guard
(`f-string` at service.py line 593). -/
def somethingNewMsg (i : Nat) (total : Nat) : String :=
  "Something new appeared after action " ++ Nat.repr i ++ " / " ++ Nat.repr total

/-- Loop body of `multi_act` over the remaining actions, carrying the
position `i`, the session (threaded through `get_state`, which can fill
an absent cache) and the fingerprint set captured when the batch began.
Each action is represented by its `get_index()` value. For an
index-targeting action with `i > 0` the code calls
`browser_context.get_state()` and stops with the informational message
when the new fingerprint set is not a subset of the captured one and
`check_for_new_elements` is set; otherwise the action result is appended
and the loop ends after a done result, a truthy error or the final
action. -/
def multi_act_loop (env : MultiActEnv) (check_for_new_elements : Bool) (total : Nat)
    (cachedHashes : List String) :
    BrowserSession → List (Option Nat) → Nat → List ActionResult
  | _, [], _ => []
  | s, a :: rest, i =>
    if a.isSome && !(i == 0) then
      let p := get_state s env.update_env
      if check_for_new_elements && !(hashesSubset (pathHashes p.2.selector_map) cachedHashes) then
        [⟨false, some (somethingNewMsg i total), none, true⟩]
      else
        let r := env.act_result i
        r :: (if r.is_done || errorTruthy r || (i == total - 1) then []
              else multi_act_loop env check_for_new_elements total cachedHashes p.1 rest (i + 1))
    else
      let r := env.act_result i
      r :: (if r.is_done || errorTruthy r || (i == total - 1) then []
            else multi_act_loop env check_for_new_elements total cachedHashes s rest (i + 1))

/-- Embedding of `Controller.multi_act`. `st0` is the session cached
state at entry (`session.cached_state`, always set by
`_initialize_session`); its selector-map fingerprints are captured before
the loop. The cooperative pause callback and `remove_highlights` have no
bearing on the result list and are not represented. -/
def multi_act (env : MultiActEnv) (check_for_new_elements : Bool)
    (st0 : BrowserState) (window_handle : String)
    (actions : List (Option Nat)) : List ActionResult :=
  multi_act_loop env check_for_new_elements actions.length
    (pathHashes st0.selector_map) ⟨some st0, window_handle⟩ actions 0

/-! ### Concrete fixtures used by the theorems below -/

/-- Driver in which only the text-containment XPath for the text `Hello`
matches a live element (element number 7); every selector lookup misses. -/
def locator_witness_driver : SelDriver :=
  ⟨fun x => if x == text_match_xpath "Hello" then some 7 else none,
   fun _ => none⟩

/-- Element node whose stored structural path is stale and whose only
usable trace on the live page is its child text `Hello`. -/
def locator_witness_element : DOMNode :=
  DOMNode.element "div" "/html/body/div[3]" [] true (some 4) true
    [DOMNode.text "Hello" true]

/-- Interactive button node for the batch fixture. -/
def c1_button (xp : String) (idx : Nat) : DOMNode :=
  DOMNode.element "button" xp [] true (some idx) true []

/-- Cached browser state at the start of a three-action batch: two
interactive buttons with handles 1 and 2. -/
def c1_state : BrowserState :=
  ⟨DOMNode.element "root" "" [] true none false
      [c1_button "/html/body/button[1]" 1, c1_button "/html/body/button[2]" 2],
    [(1, c1_button "/html/body/button[1]" 1), (2, c1_button "/html/body/button[2]" 2)],
    "https://example.com/form", "Example", none, []⟩

/-- Ordinary successful click results for the batch fixture: not done,
no error. -/
def c1_result (i : Nat) : ActionResult :=
  ⟨false, some ("clicked step " ++ Nat.repr i), none, true⟩

/-- Dropdown environment whose main document really contains a select
element under the XPath `//select[1]` offering the visible option
`Canada`; there are no iframes. -/
def c8_env : DropdownEnv :=
  ⟨⟨fun x => x == "//select[1]",
    fun x t => x == "//select[1]" && t == "Canada"⟩, []⟩

/-! ### Helper lemmas for the selector-map invariant -/

mutual

theorem mem_buildSelectorMapNode_iff (n : DOMNode) (idx : Nat) (m : DOMNode) :
    (idx, m) ∈ buildSelectorMapNode n ↔
      m ∈ allNodes n ∧ isElementNode m = true ∧ highlightIdx m = some idx := by
  cases n with
  | text s v =>
    constructor
    · intro h
      simp [buildSelectorMapNode] at h
    · rintro ⟨hm, hel, _⟩
      simp [allNodes] at hm
      subst hm
      simp [isElementNode] at hel
  | element t x a v hl ii cs =>
    have ih := mem_buildSelectorMapChildren_iff cs idx m
    cases hl with
    | none =>
      constructor
      · intro h
        simp only [buildSelectorMapNode, List.nil_append] at h
        rcases ih.mp h with ⟨hm, hel, hh⟩
        exact ⟨by simp [allNodes, hm], hel, hh⟩
      · rintro ⟨hm, hel, hh⟩
        simp only [allNodes, List.mem_cons] at hm
        rcases hm with hm | hm
        · subst hm
          simp [highlightIdx] at hh
        · simp only [buildSelectorMapNode, List.nil_append]
          exact ih.mpr ⟨hm, hel, hh⟩
    | some j =>
      constructor
      · intro h
        simp only [buildSelectorMapNode, List.singleton_append, List.mem_cons] at h
        rcases h with h | h
        · have hi : idx = j := congrArg Prod.fst h
          have hm : m = DOMNode.element t x a v (some j) ii cs := congrArg Prod.snd h
          subst hm
          subst hi
          exact ⟨by simp [allNodes], by simp [isElementNode], by simp [highlightIdx]⟩
        · rcases ih.mp h with ⟨hm, hel, hh⟩
          exact ⟨by simp [allNodes, hm], hel, hh⟩
      · rintro ⟨hm, hel, hh⟩
        simp only [allNodes, List.mem_cons] at hm
        simp only [buildSelectorMapNode, List.singleton_append, List.mem_cons]
        rcases hm with hm | hm
        · subst hm
          simp only [highlightIdx] at hh
          injection hh with hj
          subst hj
          exact Or.inl rfl
        · exact Or.inr (ih.mpr ⟨hm, hel, hh⟩)

theorem mem_buildSelectorMapChildren_iff (cs : List DOMNode) (idx : Nat) (m : DOMNode) :
    (idx, m) ∈ buildSelectorMapChildren cs ↔
      m ∈ allNodesChildren cs ∧ isElementNode m = true ∧ highlightIdx m = some idx := by
  cases cs with
  | nil =>
    constructor
    · intro h
      simp [buildSelectorMapChildren] at h
    · rintro ⟨hm, _, _⟩
      simp [allNodesChildren] at hm
  | cons c rest =>
    have ih1 := mem_buildSelectorMapNode_iff c idx m
    have ih2 := mem_buildSelectorMapChildren_iff rest idx m
    simp only [buildSelectorMapChildren, allNodesChildren, List.mem_append]
    constructor
    · intro h
      rcases h with h | h
      · rcases ih1.mp h with ⟨hm, hel, hh⟩
        exact ⟨Or.inl hm, hel, hh⟩
      · rcases ih2.mp h with ⟨hm, hel, hh⟩
        exact ⟨Or.inr hm, hel, hh⟩
    · rintro ⟨hm | hm, hel, hh⟩
      · exact Or.inl (ih1.mpr ⟨hm, hel, hh⟩)
      · exact Or.inr (ih2.mpr ⟨hm, hel, hh⟩)

end

/-! ### Claim theorems -/

/-- C9: for every snapshot, the selector map produced by the single
depth-first traversal of `_build_selector_map` contains exactly the
element nodes carrying a highlight index, keyed by that index, and every
entry refers to a node reachable by traversal from the snapshot root —
no dangling handles. -/
theorem selector_map_exact_and_reachable (root : DOMNode) (idx : Nat) (m : DOMNode) :
    (idx, m) ∈ build_selector_map root ↔
      m ∈ allNodes root ∧ isElementNode m = true ∧ highlightIdx m = some idx :=
  mem_buildSelectorMapNode_iff root idx m

/-- C3: with the allow-list `["example.com"]`, navigating to
`https://example.com/page` succeeds and makes it the current URL, while
navigating to `https://evil.example.org` returns the distinct
`URLNotAllowedError` message and leaves the session URL unchanged from
before the attempt, for every starting URL. -/
theorem allowlist_navigation (u0 : String) :
    navigate_to (some ["example.com"]) ⟨u0⟩ "https://example.com/page" =
      (Except.ok (), ⟨"https://example.com/page"⟩) ∧
    navigate_to (some ["example.com"]) ⟨u0⟩ "https://evil.example.org" =
      (Except.error "Navigation to URL \x27https://evil.example.org\x27 is not allowed.",
        ⟨u0⟩) :=
  ⟨rfl, rfl⟩

/-- C10: whenever `urlparse` yields no hostname for a URL (for example
`about:blank`), `_is_url_allowed` returns `True` even under a non-empty
configured allow-list — the check fails open. -/
theorem no_hostname_fails_open (url : String) (ds : List String)
    (h : url_hostname url = none) :
    is_url_allowed (some ds) url = true := by
  simp [is_url_allowed, h]

/-- Witness for C10 at the concrete input `about:blank` with the
non-empty allow-list `["example.com"]`. -/
theorem no_hostname_fails_open_witness :
    url_hostname "about:blank" = none ∧
      is_url_allowed (some ["example.com"]) "about:blank" = true :=
  ⟨by decide, no_hostname_fails_open "about:blank" ["example.com"] (by decide)⟩

/-- C4: `_update_state` never leaves the cache partially updated and
never returns a half-built tree: either some step failed, the previous
cache is kept exactly and the returned state is the minimal state with
the empty synthetic root and empty selector map, or every step succeeded,
the returned state is the fully built one and the cache now holds exactly
that state. No error escapes: the function is total. -/
theorem update_state_atomic (s : BrowserSession) (env : UpdateEnv) :
    ((update_state s env).1.cached_state = s.cached_state ∧
      (update_state s env).2 = minimal_state env) ∨
    ((update_state s env).1.cached_state = some (update_state s env).2 ∧
      ∃ tree tabs m shot,
        env.extract_dom_tree = Except.ok tree ∧
        env.tabs_info = Except.ok tabs ∧
        env.selector_map_result = Except.ok m ∧
        (update_state s env).2 =
          ⟨tree, m, env.current_url, env.title, shot, tabs⟩) := by
  cases hx : env.extract_dom_tree with
  | error e =>
    left
    constructor <;> simp [update_state, hx]
  | ok tree =>
    cases ht : env.tabs_info with
    | error e =>
      left
      constructor <;> simp [update_state, hx, ht]
    | ok tabs =>
      cases hm : env.selector_map_result with
      | error e =>
        left
        constructor <;> simp [update_state, hx, ht, hm]
      | ok m =>
        right
        refine ⟨by simp [update_state, hx, ht, hm], tree, tabs, m,
          (match env.screenshot_result with | .ok b => some b | .error _ => none),
          rfl, rfl, rfl, by simp [update_state, hx, ht, hm]⟩

/-- C5: calling `get_state` twice on a session carrying a cached state,
with no intervening action, returns the identical cached state both times
and leaves the session untouched; recomputation (`_update_state`) runs
only when no cached state is present. -/
theorem get_state_idempotent_on_cache (w : String) (st : BrowserState)
    (e1 e2 : UpdateEnv) :
    get_state ⟨some st, w⟩ e1 = (⟨some st, w⟩, st) ∧
    get_state (get_state ⟨some st, w⟩ e1).1 e2 = (⟨some st, w⟩, st) ∧
    get_state (⟨none, w⟩ : BrowserSession) e1 = update_state ⟨none, w⟩ e1 :=
  ⟨rfl, rfl, rfl⟩

/-- C6: when the structural path, the attribute-based selector and the
simplified selector all fail to match, `get_locate_element` falls back to
the text-containment strategy: it returns exactly what the text-match
lookup yields, so it succeeds when the child text matches a live element
and returns the not-found result `none` — rather than throwing — when no
strategy matches. -/
theorem locator_text_fallback (b : Bool) (d : SelDriver) (el : DOMNode)
    (h1 : nodeXpath el = "" ∨ d.find_xpath (nodeXpath el) = none)
    (h2 : enhanced_css_selector_for_element el b = "" ∨
      d.find_css (enhanced_css_selector_for_element el b) = none)
    (h3 : simple_selector_for_element el = "" ∨
      d.find_css (simple_selector_for_element el) = none) :
    get_locate_element b d (some el) =
      (if !(childTextContent el == "") && stripTruthy (childTextContent el) then
        d.find_xpath (text_match_xpath (childTextContent el))
      else none) := by
  have e1 : (if !(nodeXpath el == "") then d.find_xpath (nodeXpath el) else none) = none := by
    rcases h1 with h | h <;> simp [h]
  have e2 : (if !(enhanced_css_selector_for_element el b == "") then
      d.find_css (enhanced_css_selector_for_element el b) else none) = none := by
    rcases h2 with h | h <;> simp [h]
  have e3 : (if !(simple_selector_for_element el == "") then
      d.find_css (simple_selector_for_element el) else none) = none := by
    rcases h3 with h | h <;> simp [h]
  simp only [get_locate_element, e1, e2, e3]

/-- Witness for C6: an element whose stored structural path is stale,
whose selectors match nothing, but whose child text `Hello` matches a
live element; the locator returns that element. -/
theorem locator_text_fallback_witness :
    locator_witness_driver.find_xpath (nodeXpath locator_witness_element) = none ∧
    get_locate_element true locator_witness_driver (some locator_witness_element) = some 7 :=
  ⟨by decide,
    (locator_text_fallback true locator_witness_driver locator_witness_element
      (Or.inr (by decide)) (Or.inr rfl) (Or.inr rfl)).trans (by decide)⟩

/-- C7: every `_wait_for_page_load` run follows the fixed order — the
configured minimum delay, then the ready-state poll bounded by the
effective maximum timeout, then (when the poll succeeds in time) the
network-idle grace period — and a ready-state timeout produces only a
warning event and still returns normally, never failing the enclosing
action. -/
theorem page_settle_order_and_best_effort (cfg : BrowserContextConfig) (o : Option ℚ) :
    (∀ ready, (wait_for_page_load cfg o ready).2 = true) ∧
    wait_for_page_load cfg o true =
      ([WaitEvent.sleep_min cfg.minimum_wait_page_load_time,
        WaitEvent.poll_ready (effective_timeout cfg o),
        WaitEvent.sleep_network_idle cfg.wait_for_network_idle_page_load_time], true) ∧
    wait_for_page_load cfg o false =
      ([WaitEvent.sleep_min cfg.minimum_wait_page_load_time,
        WaitEvent.poll_ready (effective_timeout cfg o),
        WaitEvent.warn_timeout (effective_timeout cfg o)], true) := by
  refine ⟨fun ready => ?_, rfl, rfl⟩
  cases ready <;> rfl

/-- C2 is violated by the code: the replay snippet emitted for an
input-text action embeds the literal text even when the sensitive flag is
set — the snippet for the secret `secret123` contains `secret123` — and
the emitted snippet does not depend on the flag at all. (The
human-readable log line alone is redacted.) -/
theorem sensitive_literal_leaks_into_snippet :
    strContains (input_text_snippet "//input[1]" "secret123" true) "secret123" = true ∧
    (∀ x t, input_text_snippet x t true = input_text_snippet x t false) :=
  ⟨by decide, fun _ _ => rfl⟩

/-- C8 is violated by the code: with a real select element at
`//select[1]` in the main document offering the visible option `Canada`,
`select_dropdown_option` never matches anything — it passes the driver
the literal strings of the un-interpolated template instead of the
requested xpath and option text — so no frame selection succeeds
(`found_in_frame = false`), yet the action still returns the success
message. A non-select target does fail descriptively. -/
theorem select_dropdown_literal_template_bug :
    (select_dropdown_option c8_env 5 "div" "//select[1]" "Canada").1.error =
      some "Element at index 5 is a div, not a SELECT" ∧
    select_dropdown_option c8_env 5 "select" "//select[1]" "Canada" =
      (⟨false, some "Selected option \x27Canada\x27 from dropdown at index 5",
        none, true⟩, false) :=
  ⟨by decide, by decide⟩

/-- C1 is violated by the code: in `multi_act`, the state consulted by
the change-detection guard comes from `get_state`, which returns the
cached state captured when the batch began whenever a cache is present
(which it always is), so the fingerprint comparison is against itself and
the guard never fires. For a batch of three handle-addressed actions the
result list has three entries — all actions run — for every driver
environment, in particular whatever new interactive elements the live
page now contains; the claimed two-entry stop never happens. -/
theorem multi_act_guard_never_fires (uenv : UpdateEnv) :
    multi_act ⟨c1_result, uenv⟩ true c1_state "w0" [some 1, some 2, some 3] =
      [c1_result 0, c1_result 1, c1_result 2] :=
  rfl

end BrowserUse
